/-
A shallow embedding of `src/visqol_manager.cc` (ViSQOL's `VisqolManager`
orchestrator) together with proofs about its initialization, validation,
batch-iteration and error-propagation behaviour.

Conventions:
* `google::protobuf::util::Status` is embedded as `Option ErrorCode`
  (`none` = OK, `some e` = failure with code `e`); `StatusOr<T>` is
  `Except ErrorCode T`.
* Machine reals (`double`) carrying durations and similarity values are
  embedded as `ℚ` (exact real semantics of the arithmetic the manager
  performs on them: a subtraction, an absolute value and a comparison).
* `ABSL_RAW_LOG` calls are made observable: every manager operation also
  returns the ordered list of `LogEntry` values it emitted.
* Collaborator components whose code lives outside `src/`
  (`MiscAudio::LoadAsMono`, `Alignment::GloballyAlign`,
  `Visqol::CalculateSimilarity`, the SVR model load inside
  `SvrSimilarityToQualityMapper::Init`) are opaque to the manager; they are
  supplied through an `Env` record so that theorems quantify over every
  possible behaviour of theirs, and concrete `Env` values instantiate them
  in witnesses.
* The C++ methods mutate fields of `VisqolManager` and (for the
  signal-based `Run`) the by-reference `deg_signal` argument; the
  embedding passes this state explicitly: each operation returns the
  manager value and (where applicable) the final caller-visible value of
  `deg_signal`.
-/
import Mathlib

namespace Visqol

/-- Error codes of `google::protobuf::util::error::Code` used by the
manager and its collaborators. -/
inductive ErrorCode
  | ABORTED
  | INVALID_ARGUMENT
  | NOT_FOUND
  | INTERNAL
  | UNKNOWN
deriving DecidableEq, Repr

/-- Embeds `google::protobuf::util::Status`: `none` is the OK status. -/
abbrev Status := Option ErrorCode

/-- Embeds `util::StatusOr<T>`. -/
abbrev StatusOr (α : Type) := Except ErrorCode α

deriving instance DecidableEq for Except

/-- A file path (`Visqol::FilePath` wraps a string path). -/
abbrev FilePath' := String

/-- Observable `ABSL_RAW_LOG` events emitted by `visqol_manager.cc`. -/
inductive LogEntry
  | durationMismatchWarning
  | speechSampleRateWarning
  | fullAudioSampleRateWarning
  | initErrorLog (e : ErrorCode)
  | runErrorLog (e : ErrorCode)
deriving DecidableEq, Repr

/-- Modelled from the spec: `AudioSignal` (header not under `src/`) is a
mono sample buffer with a sample rate; "Signal: ordered sequence of
real-valued samples + sample rate (Hz)". -/
structure AudioSignal where
  data_matrix : List ℚ
  sample_rate : ℕ
deriving DecidableEq, Repr

/-- Modelled from the spec: "duration = length / sample_rate"
(`AudioSignal::GetDuration`, not under `src/`). -/
def AudioSignal.GetDuration (s : AudioSignal) : ℚ :=
  (s.data_matrix.length : ℚ) / (s.sample_rate : ℚ)

/-- Modelled from the spec: `AnalysisWindow` (not under `src/`) is the
window geometry, "derived configuration — window length in samples
(function of sample rate) and overlap fraction". The manager constructs it
as `AnalysisWindow{ref_signal.sample_rate, kOverlap}`. -/
structure AnalysisWindow where
  sample_rate : ℕ
  overlap : ℚ
deriving DecidableEq, Repr

/-- The patch-creator strategy objects the manager constructs
(`VadPatchCreator` for speech, `ImagePatchCreator` for full audio), each
holding its patch size. -/
inductive PatchCreator
  | vadPatchCreator (patch_size : ℕ)
  | imagePatchCreator (patch_size : ℕ)
deriving DecidableEq, Repr

/-- The patch-similarity measure handed to the patches selector. -/
inductive PatchSimilarityComparator
  | neurogramSimiliarityIndexMeasure
deriving DecidableEq, Repr

/-- The patch-selector object (`ComparisonPatchesSelector` over a
similarity measure). -/
inductive PatchesSelector
  | comparisonPatchesSelector (measure : PatchSimilarityComparator)
deriving DecidableEq, Repr

/-- The gammatone filterbank configuration
(`GammatoneFilterBank{num_bands, min_freq}`). -/
structure GammatoneFilterBank where
  num_bands : ℕ
  min_freq : ℚ
deriving DecidableEq, Repr

/-- The spectrogram-builder object
(`GammatoneSpectrogramBuilder{filter_bank, use_speech_mode}`). -/
inductive SpectrogramBuilder
  | gammatoneSpectrogramBuilder (filter_bank : GammatoneFilterBank)
      (speech_mode : Bool)
deriving DecidableEq, Repr

/-- The similarity-to-quality mapper variants the manager constructs:
`SpeechSimilarityToQualityMapper(scale_to_max_mos)` or
`SvrSimilarityToQualityMapper(model_path)`. -/
inductive SimilarityToQualityMapper
  | speech (scale_to_max_mos : Bool)
  | svr (model_path : FilePath')
deriving DecidableEq, Repr

/-- Embeds `PatchSimilarityResult` as read by `PopulateSimResultMsg`. -/
structure PatchSimilarityResult where
  similarity : ℚ
  ref_patch_start_time : ℚ
  ref_patch_end_time : ℚ
  deg_patch_start_time : ℚ
  deg_patch_end_time : ℚ
  freq_band_means : List ℚ
deriving DecidableEq, Repr

/-- The debug payload of a `SimilarityResult`. -/
structure SimilarityDebugInfo where
  patch_sims : List PatchSimilarityResult
deriving DecidableEq, Repr

/-- Embeds `SimilarityResult` as read by `PopulateSimResultMsg`. -/
structure SimilarityResult where
  moslqo : ℚ
  vnsim : ℚ
  fvnsim : List ℚ
  center_freq_bands : List ℚ
  debug_info : SimilarityDebugInfo
deriving DecidableEq, Repr

/-- The protobuf message `SimilarityResultMsg` as populated by the
manager (`set_moslqo`, `add_fvnsim`, ..., `set_reference_filepath`). -/
structure SimilarityResultMsg where
  moslqo : ℚ
  vnsim : ℚ
  fvnsim : List ℚ
  center_freq_bands : List ℚ
  patch_sims : List PatchSimilarityResult
  reference_filepath : String
  degraded_filepath : String
deriving DecidableEq, Repr

/-- Embeds `ReferenceDegradedPathPair`. -/
structure ReferenceDegradedPathPair where
  reference : FilePath'
  degraded : FilePath'
deriving DecidableEq, Repr

/-- Behaviour of the collaborators the manager calls but whose code is
outside `src/`. The manager treats each as a black box; theorems
quantify over every `Env`. -/
structure Env where
  /-- Modelled from the spec: whether the SVR regression model at a path
  loads ("Initialization fails if the model file is missing or
  malformed"); `SvrSimilarityToQualityMapper::Init` is not under `src/`.
  `none` = load succeeded. -/
  svrModelLoad : FilePath' → Status
  /-- Embeds `MiscAudio::LoadAsMono` (not under `src/`): decodes a file into a
  mono signal. -/
  loadAsMono : FilePath' → AudioSignal
  /-- Embeds `Alignment::GloballyAlign` (not under `src/`): returns the aligned
  degraded signal and the detected lag. -/
  globallyAlign : AudioSignal → AudioSignal → AudioSignal × ℚ
  /-- Embeds `Visqol::CalculateSimilarity` (not under `src/`). -/
  calculateSimilarity : AudioSignal → AudioSignal → SpectrogramBuilder →
      AnalysisWindow → PatchCreator → PatchesSelector →
      SimilarityToQualityMapper → StatusOr SimilarityResult

/-- Modelled from the spec: `SpeechSimilarityToQualityMapper::Init` has
"No external file dependency; initialization always succeeds", while
`SvrSimilarityToQualityMapper::Init` loads the model file and fails if it
is missing or malformed (neither class is under `src/`). -/
def SimilarityToQualityMapper.Init (env : Env) :
    SimilarityToQualityMapper → Status
  | .speech _ => none
  | .svr model_path => env.svrModelLoad model_path

/-- The state of a `VisqolManager` object. A fresh object has
`is_initialized_ = false` and no components constructed. -/
structure VisqolManager where
  use_speech_mode_ : Bool := false
  use_unscaled_speech_mos_mapping_ : Bool := false
  is_initialized_ : Bool := false
  patch_creator_ : Option PatchCreator := none
  patch_selector_ : Option PatchesSelector := none
  spectrogram_builder_ : Option SpectrogramBuilder := none
  sim_to_qual_ : Option SimilarityToQualityMapper := none
deriving DecidableEq, Repr

def k16kSampleRate : ℕ := 16000
def k48kSampleRate : ℕ := 48000
def VisqolManager.kPatchSize : ℕ := 30
def VisqolManager.kPatchSizeSpeech : ℕ := 20
def VisqolManager.kNumBandsAudio : ℕ := 32
def VisqolManager.kNumBandsSpeech : ℕ := 21
def VisqolManager.kMinimumFreq : ℚ := 50
def VisqolManager.kOverlap : ℚ := 1/4
def VisqolManager.kDurationMismatchTolerance : ℚ := 1

/-- Embeds `VisqolManager::InitPatchCreator`. -/
def VisqolManager.InitPatchCreator (m : VisqolManager) : VisqolManager :=
  if m.use_speech_mode_ then
    { m with patch_creator_ := some (.vadPatchCreator VisqolManager.kPatchSizeSpeech) }
  else
    { m with patch_creator_ := some (.imagePatchCreator VisqolManager.kPatchSize) }

/-- Embeds `VisqolManager::InitPatchSelector`. -/
def VisqolManager.InitPatchSelector (m : VisqolManager) : VisqolManager :=
  { m with patch_selector_ := some (.comparisonPatchesSelector .neurogramSimiliarityIndexMeasure) }

/-- Embeds `VisqolManager::InitSpectrogramBuilder`. -/
def VisqolManager.InitSpectrogramBuilder (m : VisqolManager) :
    VisqolManager :=
  if m.use_speech_mode_ then
    { m with spectrogram_builder_ := some (.gammatoneSpectrogramBuilder ⟨VisqolManager.kNumBandsSpeech, VisqolManager.kMinimumFreq⟩ true) }
  else
    { m with spectrogram_builder_ := some (.gammatoneSpectrogramBuilder ⟨VisqolManager.kNumBandsAudio, VisqolManager.kMinimumFreq⟩ false) }

/-- Embeds `VisqolManager::InitSimilarityToQualityMapper`: constructs the mapper
variant from the mode flag, then calls the mapper's `Init`. -/
def VisqolManager.InitSimilarityToQualityMapper (m : VisqolManager)
    (env : Env) (sim_to_quality_mapper_model : FilePath') :
    VisqolManager × Status :=
  let mapper : SimilarityToQualityMapper :=
    if m.use_speech_mode_ then
      .speech (!m.use_unscaled_speech_mos_mapping_)
    else
      .svr sim_to_quality_mapper_model
  ({ m with sim_to_qual_ := some mapper }, mapper.Init env)

/-- Embeds `VisqolManager::Init`: stores the mode flags, constructs the
components, and sets `is_initialized_` only if the mapper init
succeeded; on failure the error is logged and returned. -/
def VisqolManager.Init (m : VisqolManager) (env : Env)
    (sim_to_quality_mapper_model : FilePath')
    (use_speech_mode use_unscaled_speech : Bool) :
    VisqolManager × Status × List LogEntry :=
  let m := { m with use_speech_mode_ := use_speech_mode,
                    use_unscaled_speech_mos_mapping_ := use_unscaled_speech }
  let m := m.InitPatchCreator
  let m := m.InitPatchSelector
  let m := m.InitSpectrogramBuilder
  let (m, status) :=
    m.InitSimilarityToQualityMapper env sim_to_quality_mapper_model
  match status with
  | none => ({ m with is_initialized_ := true }, none, [])
  | some e => (m, some e, [.initErrorLog e])

/-- Embeds `VisqolManager::ErrorIfNotInitialized`. -/
def VisqolManager.ErrorIfNotInitialized (m : VisqolManager) : Status :=
  if m.is_initialized_ = false then some .ABORTED else none

/-- Embeds `VisqolManager::ValidateInputAudio`: warns (non-fatally) on a
duration mismatch beyond the tolerance, errors with `INVALID_ARGUMENT` on
differing sample rates, then warns on a mode-unexpected sample rate.
Returns the status and the warnings logged. -/
def VisqolManager.ValidateInputAudio (m : VisqolManager)
    (ref_signal deg_signal : AudioSignal) : Status × List LogEntry :=
  let ref_duration := ref_signal.GetDuration
  let deg_duration := deg_signal.GetDuration
  let warns : List LogEntry :=
    if |ref_duration - deg_duration| >
        VisqolManager.kDurationMismatchTolerance then
      [.durationMismatchWarning]
    else []
  if ref_signal.sample_rate ≠ deg_signal.sample_rate then
    (some .INVALID_ARGUMENT, warns)
  else
    let warns := warns ++
      (if m.use_speech_mode_ then
        (if ref_signal.sample_rate > k16kSampleRate then
          [LogEntry.speechSampleRateWarning]
        else [])
      else
        (if ref_signal.sample_rate ≠ k48kSampleRate then
          [LogEntry.fullAudioSampleRateWarning]
        else []))
    (none, warns)

/-- Embeds `VisqolManager::PopulateSimResultMsg`. -/
def VisqolManager.PopulateSimResultMsg (sim_result : SimilarityResult) :
    SimilarityResultMsg :=
  { moslqo := sim_result.moslqo
    vnsim := sim_result.vnsim
    fvnsim := sim_result.fvnsim
    center_freq_bands := sim_result.center_freq_bands
    patch_sims := sim_result.debug_info.patch_sims
    reference_filepath := ""
    degraded_filepath := "" }

/-- The outcome of the signal-based
`VisqolManager::Run(const AudioSignal&, AudioSignal&)`: its return value,
the manager state after the call, the final caller-visible value of the
by-reference `deg_signal` argument, and the log entries emitted. -/
structure RunSignalsOutcome where
  result : StatusOr SimilarityResultMsg
  manager : VisqolManager
  deg_signal : AudioSignal
  logs : List LogEntry
deriving Repr

/-- Signal-based `VisqolManager::Run`: checks initialization, validates
the inputs, overwrites `deg_signal` with the globally aligned signal, and
computes the similarity. The `deg_signal` argument is a non-const C++
reference, so its final value is part of the outcome. -/
def VisqolManager.RunSignals (m : VisqolManager) (env : Env)
    (ref_signal deg_signal : AudioSignal) : RunSignalsOutcome :=
  match m.ErrorIfNotInitialized with
  | some e => ⟨.error e, m, deg_signal, []⟩
  | none =>
    match m.ValidateInputAudio ref_signal deg_signal with
    | (some e, warns) => ⟨.error e, m, deg_signal, warns⟩
    | (none, warns) =>
      let alignment_result := env.globallyAlign ref_signal deg_signal
      let deg_signal := alignment_result.1
      let window : AnalysisWindow :=
        ⟨ref_signal.sample_rate, VisqolManager.kOverlap⟩
      match m.spectrogram_builder_, m.patch_creator_, m.patch_selector_,
          m.sim_to_qual_ with
      | some builder, some creator, some selector, some mapper =>
        match env.calculateSimilarity ref_signal deg_signal builder window
            creator selector mapper with
        | .error e => ⟨.error e, m, deg_signal, warns⟩
        | .ok sim_result =>
          ⟨.ok (VisqolManager.PopulateSimResultMsg sim_result), m,
            deg_signal, warns⟩
      | _, _, _, _ => ⟨.error .INTERNAL, m, deg_signal, warns⟩

/-- The outcome of the path-based
`VisqolManager::Run(const FilePath&, const FilePath&)`: its return value,
the manager state after the call, the log entries, and the list of file
paths passed to `MiscAudio::LoadAsMono` (in load order). -/
structure RunPathsOutcome where
  result : StatusOr SimilarityResultMsg
  manager : VisqolManager
  logs : List LogEntry
  loaded : List FilePath'
deriving Repr

/-- Path-based `VisqolManager::Run`: checks initialization, loads both
files as mono, delegates to the signal-based `Run`, and on success stamps
the file paths into the result message. -/
def VisqolManager.RunPaths (m : VisqolManager) (env : Env)
    (ref_signal_path deg_signal_path : FilePath') : RunPathsOutcome :=
  match m.ErrorIfNotInitialized with
  | some e => ⟨.error e, m, [], []⟩
  | none =>
    let ref_signal := env.loadAsMono ref_signal_path
    let deg_signal := env.loadAsMono deg_signal_path
    let out := m.RunSignals env ref_signal deg_signal
    match out.result with
    | .error e => ⟨.error e, out.manager, out.logs,
        [ref_signal_path, deg_signal_path]⟩
    | .ok msg =>
      ⟨.ok { msg with reference_filepath := ref_signal_path,
                      degraded_filepath := deg_signal_path },
        out.manager, out.logs, [ref_signal_path, deg_signal_path]⟩

/-- The outcome of the batch
`VisqolManager::Run(const std::vector<ReferenceDegradedPathPair>&)`. -/
structure RunBatchOutcome where
  sim_results : List SimilarityResultMsg
  manager : VisqolManager
  logs : List LogEntry
deriving DecidableEq, Repr

/-- Batch `VisqolManager::Run`: runs each pair in order; a success is
appended to the results, any failure is logged, and a failure whose code
is `ABORTED` breaks out of the loop. -/
def VisqolManager.RunBatch (m : VisqolManager) (env : Env) :
    List ReferenceDegradedPathPair → RunBatchOutcome
  | [] => ⟨[], m, []⟩
  | signal_pair :: rest =>
    let out := m.RunPaths env signal_pair.reference signal_pair.degraded
    match out.result with
    | .ok msg =>
      let tail := out.manager.RunBatch env rest
      ⟨msg :: tail.sim_results, tail.manager, out.logs ++ tail.logs⟩
    | .error e =>
      if e = .ABORTED then
        ⟨[], out.manager, out.logs ++ [.runErrorLog e]⟩
      else
        let tail := out.manager.RunBatch env rest
        ⟨tail.sim_results, tail.manager,
          out.logs ++ [.runErrorLog e] ++ tail.logs⟩

/-- A sequence of `Init` calls applied in order to a manager, returning
the final manager and the list of statuses the calls returned. -/
def VisqolManager.runInits (m : VisqolManager) (env : Env) :
    List (FilePath' × Bool × Bool) → VisqolManager × List Status
  | [] => (m, [])
  | (model, s, u) :: rest =>
    let out := m.Init env model s u
    let tail := out.1.runInits env rest
    (tail.1, out.2.1 :: tail.2)

/- Helper lemmas. -/

theorem toOption_ok' {ε α : Type} (a : α) :
    (Except.ok a : Except ε α).toOption = some a := rfl

theorem toOption_error' {ε α : Type} (e : ε) :
    (Except.error e : Except ε α).toOption = none := rfl

theorem runSignals_manager (m : VisqolManager) (env : Env)
    (r d : AudioSignal) : (m.RunSignals env r d).manager = m := by
  unfold VisqolManager.RunSignals
  dsimp only
  repeat' split
  all_goals rfl

theorem runPaths_manager (m : VisqolManager) (env : Env)
    (a b : FilePath') : (m.RunPaths env a b).manager = m := by
  unfold VisqolManager.RunPaths
  dsimp only
  repeat' split
  · rfl
  · rw [runSignals_manager]
  · rw [runSignals_manager]

theorem runSignals_uninit (m : VisqolManager) (env : Env)
    (r d : AudioSignal) (h : m.is_initialized_ = false) :
    m.RunSignals env r d = ⟨.error .ABORTED, m, d, []⟩ := by
  unfold VisqolManager.RunSignals VisqolManager.ErrorIfNotInitialized
  simp [h]

theorem runPaths_uninit (m : VisqolManager) (env : Env)
    (a b : FilePath') (h : m.is_initialized_ = false) :
    m.RunPaths env a b = ⟨.error .ABORTED, m, [], []⟩ := by
  unfold VisqolManager.RunPaths VisqolManager.ErrorIfNotInitialized
  simp [h]

theorem validate_rates_ne (m : VisqolManager) (ref deg : AudioSignal)
    (h : ref.sample_rate ≠ deg.sample_rate) :
    (m.ValidateInputAudio ref deg).1 = some .INVALID_ARGUMENT := by
  unfold VisqolManager.ValidateInputAudio
  simp [h]

theorem validate_rates_eq (m : VisqolManager) (ref deg : AudioSignal)
    (h : ref.sample_rate = deg.sample_rate) :
    (m.ValidateInputAudio ref deg).1 = none := by
  unfold VisqolManager.ValidateInputAudio
  simp [h]

theorem init_failed_flag (m : VisqolManager) (env : Env)
    (model : FilePath') (s u : Bool)
    (h : (m.Init env model s u).2.1 ≠ none) :
    (m.Init env model s u).1.is_initialized_ = m.is_initialized_ := by
  unfold VisqolManager.Init VisqolManager.InitSimilarityToQualityMapper at *
  set st := SimilarityToQualityMapper.Init env
      (if m.use_speech_mode_ then
        SimilarityToQualityMapper.speech (!u)
      else SimilarityToQualityMapper.svr model) with hst
  revert h
  simp only [VisqolManager.InitPatchCreator, VisqolManager.InitPatchSelector,
    VisqolManager.InitSpectrogramBuilder]
  repeat' split
  all_goals simp_all

theorem runInits_failed_flag (env : Env)
    (calls : List (FilePath' × Bool × Bool)) :
    ∀ m : VisqolManager, m.is_initialized_ = false →
    (∀ st ∈ (m.runInits env calls).2, st ≠ none) →
    (m.runInits env calls).1.is_initialized_ = false := by
  induction calls with
  | nil => intro m h _; exact h
  | cons c rest ih =>
    intro m h hall
    obtain ⟨model, s, u⟩ := c
    simp only [VisqolManager.runInits] at hall ⊢
    have h1 : (m.Init env model s u).2.1 ≠ none :=
      hall _ (List.mem_cons_self _ _)
    have h2 := init_failed_flag m env model s u h1
    exact ih _ (h2.trans h) (fun st hst => hall st (List.mem_cons_of_mem _ hst))

theorem runSignals_invalid (m : VisqolManager) (env : Env)
    (ref deg : AudioSignal) (hinit : m.is_initialized_ = true)
    (hne : ref.sample_rate ≠ deg.sample_rate) :
    m.RunSignals env ref deg =
      ⟨.error .INVALID_ARGUMENT, m, deg,
        (m.ValidateInputAudio ref deg).2⟩ := by
  have h1 := validate_rates_ne m ref deg hne
  unfold VisqolManager.RunSignals VisqolManager.ErrorIfNotInitialized
  cases hv : m.ValidateInputAudio ref deg with
  | mk st warns =>
    rw [hv] at h1
    simp only at h1
    subst h1
    simp [hinit, hv]

theorem runSignals_deg_aligned (m : VisqolManager) (env : Env)
    (ref deg : AudioSignal) (hinit : m.is_initialized_ = true)
    (hv : (m.ValidateInputAudio ref deg).1 = none) :
    (m.RunSignals env ref deg).deg_signal =
      (env.globallyAlign ref deg).1 := by
  unfold VisqolManager.RunSignals VisqolManager.ErrorIfNotInitialized
  cases hval : m.ValidateInputAudio ref deg with
  | mk st warns =>
    rw [hval] at hv
    simp only at hv
    subst hv
    simp only [hinit, hval]
    repeat' split
    all_goals simp_all

theorem runBatch_cons_ok (m : VisqolManager) (env : Env)
    (q : ReferenceDegradedPathPair) (rest : List ReferenceDegradedPathPair)
    (msg : SimilarityResultMsg)
    (h : (m.RunPaths env q.reference q.degraded).result = .ok msg) :
    m.RunBatch env (q :: rest) =
      ⟨msg :: (m.RunBatch env rest).sim_results,
        (m.RunBatch env rest).manager,
        (m.RunPaths env q.reference q.degraded).logs ++
          (m.RunBatch env rest).logs⟩ := by
  conv_lhs => unfold VisqolManager.RunBatch
  dsimp only
  rw [h, runPaths_manager]

theorem runBatch_cons_aborted (m : VisqolManager) (env : Env)
    (q : ReferenceDegradedPathPair) (rest : List ReferenceDegradedPathPair)
    (h : (m.RunPaths env q.reference q.degraded).result = .error .ABORTED) :
    m.RunBatch env (q :: rest) =
      ⟨[], m, (m.RunPaths env q.reference q.degraded).logs ++
        [.runErrorLog .ABORTED]⟩ := by
  conv_lhs => unfold VisqolManager.RunBatch
  dsimp only
  rw [h, runPaths_manager]
  simp

theorem runBatch_cons_err (m : VisqolManager) (env : Env)
    (q : ReferenceDegradedPathPair) (rest : List ReferenceDegradedPathPair)
    (e : ErrorCode)
    (h : (m.RunPaths env q.reference q.degraded).result = .error e)
    (he : e ≠ .ABORTED) :
    m.RunBatch env (q :: rest) =
      ⟨(m.RunBatch env rest).sim_results,
        (m.RunBatch env rest).manager,
        (m.RunPaths env q.reference q.degraded).logs ++
          [.runErrorLog e] ++ (m.RunBatch env rest).logs⟩ := by
  conv_lhs => unfold VisqolManager.RunBatch
  dsimp only
  rw [h, runPaths_manager]
  simp [he]

/- Concrete collaborators, managers and signals used by witnesses and
counterexamples. -/

/-- A degenerate similarity result returned by the concrete environments
below. -/
def trivialSimilarityResult : SimilarityResult := ⟨0, 0, [], [], ⟨[]⟩⟩

/-- Concrete environment: the SVR model always loads, every file decodes
to one 48 kHz sample, and global alignment detects a one-sample lag and
trims it from the front of the degraded signal. -/
def envTrimAlign : Env where
  svrModelLoad := fun _ => none
  loadAsMono := fun _ => ⟨[0], k48kSampleRate⟩
  globallyAlign := fun _ deg => (⟨deg.data_matrix.drop 1, deg.sample_rate⟩, 1)
  calculateSimilarity := fun _ _ _ _ _ _ _ => .ok trivialSimilarityResult

/-- Concrete environment whose SVR model file is missing. -/
def envModelMissing : Env where
  svrModelLoad := fun _ => some .NOT_FOUND
  loadAsMono := fun _ => ⟨[0], k48kSampleRate⟩
  globallyAlign := fun _ deg => (deg, 0)
  calculateSimilarity := fun _ _ _ _ _ _ _ => .ok trivialSimilarityResult

/-- Concrete environment where the file "bad.wav" decodes at 16 kHz while
every other file decodes at 48 kHz. -/
def envMismatchedLoad : Env where
  svrModelLoad := fun _ => none
  loadAsMono := fun p =>
    if p = "bad.wav" then ⟨[0], k16kSampleRate⟩ else ⟨[0], k48kSampleRate⟩
  globallyAlign := fun _ deg => (deg, 0)
  calculateSimilarity := fun _ _ _ _ _ _ _ => .ok trivialSimilarityResult

/-- A manager successfully initialized in speech mode. -/
def mgrSpeech : VisqolManager :=
  (VisqolManager.Init {} envTrimAlign "model.txt" true false).1

/-- A manager successfully initialized in full-audio mode. -/
def mgrAudio : VisqolManager :=
  (VisqolManager.Init {} envTrimAlign "model.txt" false false).1

def sig48 : AudioSignal := ⟨[0, 0], k48kSampleRate⟩
def sig16 : AudioSignal := ⟨[0, 0], k16kSampleRate⟩
def sig17k : AudioSignal := ⟨[0, 0], 17000⟩
/-- Five seconds of signal at a 2 Hz sample rate. -/
def refSigLong : AudioSignal := ⟨List.replicate 10 0, 2⟩
/-- Six and a half seconds of signal at a 2 Hz sample rate. -/
def degSigLonger : AudioSignal := ⟨List.replicate 13 0, 2⟩

def pairGood : ReferenceDegradedPathPair := ⟨"ref.wav", "deg.wav"⟩
def pairBad : ReferenceDegradedPathPair := ⟨"ref.wav", "bad.wav"⟩

/- Claim theorems. -/

/-- C1: As long as no `Init` call has succeeded — `Init` was never called
or every `Init` so far returned a failure — every comparison call, whether
path-based or signal-based, returns the `ABORTED` (`NotInitialized`)
failure and hence no result. -/
theorem no_successful_init_runs_aborted (env envr : Env)
    (calls : List (FilePath' × Bool × Bool))
    (hfail : ∀ st ∈ (VisqolManager.runInits {} env calls).2, st ≠ none) :
    (∀ rp dp : FilePath',
      ((VisqolManager.runInits {} env calls).1.RunPaths envr rp dp).result =
        .error .ABORTED) ∧
    (∀ r d : AudioSignal,
      ((VisqolManager.runInits {} env calls).1.RunSignals envr r d).result =
        .error .ABORTED) := by
  have hflag := runInits_failed_flag env calls {} rfl hfail
  refine ⟨fun rp dp => ?_, fun r d => ?_⟩
  · rw [runPaths_uninit _ _ _ _ hflag]
  · rw [runSignals_uninit _ _ _ _ hflag]

/-- Witness for C1: one concrete `Init` call whose model load fails,
followed by a path-based comparison returning `ABORTED`. -/
theorem no_successful_init_runs_aborted_witness :
    (∀ st ∈ (VisqolManager.runInits {} envModelMissing
        [("model.txt", false, false)]).2, st ≠ none) ∧
    ((VisqolManager.runInits {} envModelMissing
        [("model.txt", false, false)]).1.RunPaths envModelMissing
        "ref.wav" "deg.wav").result = .error .ABORTED :=
  ⟨by decide,
    (no_successful_init_runs_aborted envModelMissing envModelMissing
      [("model.txt", false, false)] (by decide)).1 "ref.wav" "deg.wav"⟩

/-- C9: When the manager is uninitialized or the sample rates mismatch,
the signal-based `Run` fails before the alignment step runs: the outcome
is an error, the caller's degraded-signal argument is left unchanged, and
the whole outcome is independent of the collaborator environment (in
particular `Alignment::GloballyAlign` is never consulted). -/
theorem failing_run_atomic (m : VisqolManager) (env env' : Env)
    (ref deg : AudioSignal)
    (h : m.is_initialized_ = false ∨ ref.sample_rate ≠ deg.sample_rate) :
    (∃ e, (m.RunSignals env ref deg).result = .error e) ∧
    (m.RunSignals env ref deg).deg_signal = deg ∧
    m.RunSignals env ref deg = m.RunSignals env' ref deg := by
  rcases h with h | h
  · rw [runSignals_uninit _ env _ _ h, runSignals_uninit _ env' _ _ h]
    exact ⟨⟨.ABORTED, rfl⟩, rfl, rfl⟩
  · cases hinit : m.is_initialized_ with
    | false =>
      rw [runSignals_uninit _ env _ _ hinit,
        runSignals_uninit _ env' _ _ hinit]
      exact ⟨⟨.ABORTED, rfl⟩, rfl, rfl⟩
    | true =>
      rw [runSignals_invalid _ env _ _ hinit h,
        runSignals_invalid _ env' _ _ hinit h]
      exact ⟨⟨.INVALID_ARGUMENT, rfl⟩, rfl, rfl⟩

/-- Witness for C9 at a concrete mismatched-rate pair of signals. -/
theorem failing_run_atomic_witness :
    (mgrAudio.is_initialized_ = false ∨
      sig48.sample_rate ≠ sig16.sample_rate) ∧
    ((∃ e, (mgrAudio.RunSignals envTrimAlign sig48 sig16).result =
        .error e) ∧
     (mgrAudio.RunSignals envTrimAlign sig48 sig16).deg_signal = sig16 ∧
     mgrAudio.RunSignals envTrimAlign sig48 sig16 =
       mgrAudio.RunSignals envModelMissing sig48 sig16) :=
  ⟨by decide,
    failing_run_atomic mgrAudio envTrimAlign envModelMissing sig48 sig16
      (by decide)⟩

/-- C10: On an uninitialized manager the path-based comparison call
returns `ABORTED` without loading either audio file: the initialization
check precedes `MiscAudio::LoadAsMono`. -/
theorem uninit_path_run_loads_nothing (m : VisqolManager) (env : Env)
    (rp dp : FilePath') (h : m.is_initialized_ = false) :
    (m.RunPaths env rp dp).result = .error .ABORTED ∧
    (m.RunPaths env rp dp).loaded = [] := by
  rw [runPaths_uninit _ _ _ _ h]
  exact ⟨rfl, rfl⟩

/-- Witness for C10 on a fresh manager. -/
theorem uninit_path_run_loads_nothing_witness :
    ({} : VisqolManager).is_initialized_ = false ∧
    ((({} : VisqolManager).RunPaths envTrimAlign "ref.wav"
        "deg.wav").result = .error .ABORTED ∧
     (({} : VisqolManager).RunPaths envTrimAlign "ref.wav"
        "deg.wav").loaded = []) :=
  ⟨rfl, uninit_path_run_loads_nothing {} envTrimAlign "ref.wav" "deg.wav" rfl⟩

/-- C2: If a pair in the batch fails with the `ABORTED`
(`NotInitialized`) error — and no earlier pair did — no pair after it is
processed and the batch returns exactly the successful results collected
before that failure. -/
theorem batch_stops_at_aborted (m : VisqolManager) (env : Env)
    (pre post : List ReferenceDegradedPathPair)
    (p : ReferenceDegradedPathPair)
    (hpre : ∀ q ∈ pre,
      (m.RunPaths env q.reference q.degraded).result ≠ .error .ABORTED)
    (hp : (m.RunPaths env p.reference p.degraded).result =
      .error .ABORTED) :
    (m.RunBatch env (pre ++ p :: post)).sim_results =
      pre.filterMap
        (fun q => ((m.RunPaths env q.reference q.degraded).result).toOption) ∧
    m.RunBatch env (pre ++ p :: post) = m.RunBatch env (pre ++ [p]) := by
  revert hpre
  induction pre with
  | nil =>
    intro _
    rw [List.nil_append, List.nil_append,
      runBatch_cons_aborted m env p post hp,
      runBatch_cons_aborted m env p [] hp]
    exact ⟨rfl, rfl⟩
  | cons q pre ih =>
    intro hpre
    obtain ⟨hres, heq⟩ := ih (fun r hr => hpre r (List.mem_cons_of_mem _ hr))
    have hq := hpre q (List.mem_cons_self _ _)
    simp only [List.cons_append]
    cases hqr : (m.RunPaths env q.reference q.degraded).result with
    | ok msg =>
      rw [runBatch_cons_ok m env q (pre ++ p :: post) msg hqr,
        runBatch_cons_ok m env q (pre ++ [p]) msg hqr]
      refine ⟨?_, by rw [heq]⟩
      simp only [List.filterMap_cons, hqr, toOption_ok']
      rw [hres]
    | error e =>
      have he : e ≠ .ABORTED := fun hh => hq (hh ▸ hqr)
      rw [runBatch_cons_err m env q (pre ++ p :: post) e hqr he,
        runBatch_cons_err m env q (pre ++ [p]) e hqr he]
      refine ⟨?_, by rw [heq]⟩
      simp only [List.filterMap_cons, hqr, toOption_error']
      rw [hres]

/-- Witness for C2: a fresh (uninitialized) manager aborts on the first
pair, so the batch over two pairs returns no results. -/
theorem batch_stops_at_aborted_witness :
    ((({} : VisqolManager).RunPaths envTrimAlign pairGood.reference
        pairGood.degraded).result = .error .ABORTED) ∧
    (({} : VisqolManager).RunBatch envTrimAlign
        ([] ++ pairGood :: [pairBad])).sim_results =
      ([] : List ReferenceDegradedPathPair).filterMap
        (fun q => ((({} : VisqolManager).RunPaths envTrimAlign q.reference
          q.degraded).result).toOption) :=
  ⟨by decide,
    (batch_stops_at_aborted {} envTrimAlign [] [pairBad] pairGood
      (by simp) (by decide)).1⟩

/-- C5: A batch pair failing with any error other than `ABORTED` is
logged and omitted from the results, and every subsequent pair is still
processed: the results are those of the batch without that pair. -/
theorem batch_skips_nonfatal_failures (m : VisqolManager) (env : Env)
    (pre post : List ReferenceDegradedPathPair)
    (p : ReferenceDegradedPathPair) (e : ErrorCode)
    (hpre : ∀ q ∈ pre,
      (m.RunPaths env q.reference q.degraded).result ≠ .error .ABORTED)
    (hp : (m.RunPaths env p.reference p.degraded).result = .error e)
    (he : e ≠ .ABORTED) :
    (m.RunBatch env (pre ++ p :: post)).sim_results =
      (m.RunBatch env (pre ++ post)).sim_results ∧
    LogEntry.runErrorLog e ∈ (m.RunBatch env (pre ++ p :: post)).logs := by
  revert hpre
  induction pre with
  | nil =>
    intro _
    rw [List.nil_append, List.nil_append,
      runBatch_cons_err m env p post e hp he]
    exact ⟨rfl, by simp⟩
  | cons q pre ih =>
    intro hpre
    obtain ⟨hres, hmem⟩ := ih (fun r hr => hpre r (List.mem_cons_of_mem _ hr))
    have hq := hpre q (List.mem_cons_self _ _)
    simp only [List.cons_append]
    cases hqr : (m.RunPaths env q.reference q.degraded).result with
    | ok msg =>
      rw [runBatch_cons_ok m env q (pre ++ p :: post) msg hqr,
        runBatch_cons_ok m env q (pre ++ post) msg hqr]
      exact ⟨by simp [hres], by simp [hmem]⟩
    | error e' =>
      have he' : e' ≠ .ABORTED := fun hh => hq (hh ▸ hqr)
      rw [runBatch_cons_err m env q (pre ++ p :: post) e' hqr he',
        runBatch_cons_err m env q (pre ++ post) e' hqr he']
      exact ⟨by simp [hres], by simp [hmem]⟩

/-- Witness for C5: the "bad.wav" pair fails with `INVALID_ARGUMENT`
(mismatched sample rates after loading); the batch skips it, logs it, and
still processes the following pair. -/
theorem batch_skips_nonfatal_failures_witness :
    ((mgrAudio.RunPaths envMismatchedLoad pairBad.reference
        pairBad.degraded).result = .error .INVALID_ARGUMENT) ∧
    ((mgrAudio.RunBatch envMismatchedLoad
        ([] ++ pairBad :: [pairGood])).sim_results =
      (mgrAudio.RunBatch envMismatchedLoad ([] ++ [pairGood])).sim_results ∧
     LogEntry.runErrorLog .INVALID_ARGUMENT ∈
      (mgrAudio.RunBatch envMismatchedLoad
        ([] ++ pairBad :: [pairGood])).logs) :=
  ⟨by decide,
    batch_skips_nonfatal_failures mgrAudio envMismatchedLoad [] [pairGood]
      pairBad .INVALID_ARGUMENT (by simp) (by decide) (by decide)⟩

/-- C3: Mismatched sample rates always make validation fail with
`INVALID_ARGUMENT`, and the (initialized) comparison call returns exactly
that failure, never a similarity result; with equal sample rates
validation never returns an error. -/
theorem sample_rate_validation (m : VisqolManager) (env : Env)
    (ref deg : AudioSignal) :
    (ref.sample_rate ≠ deg.sample_rate →
      (m.ValidateInputAudio ref deg).1 = some .INVALID_ARGUMENT ∧
      (m.is_initialized_ = true →
        (m.RunSignals env ref deg).result = .error .INVALID_ARGUMENT)) ∧
    (ref.sample_rate = deg.sample_rate →
      (m.ValidateInputAudio ref deg).1 = none) := by
  constructor
  · intro hne
    refine ⟨validate_rates_ne m ref deg hne, fun hinit => ?_⟩
    rw [runSignals_invalid m env ref deg hinit hne]
  · exact validate_rates_eq m ref deg

/-- Witness for C3 at 48 kHz vs 16 kHz signals. -/
theorem sample_rate_validation_witness :
    (sig48.sample_rate ≠ sig16.sample_rate ∧
     (mgrAudio.ValidateInputAudio sig48 sig16).1 = some .INVALID_ARGUMENT ∧
     mgrAudio.is_initialized_ = true ∧
     (mgrAudio.RunSignals envTrimAlign sig48 sig16).result =
       .error .INVALID_ARGUMENT) ∧
    (sig48.sample_rate = sig48.sample_rate ∧
     (mgrAudio.ValidateInputAudio sig48 sig48).1 = none) :=
  ⟨⟨by decide,
    ((sample_rate_validation mgrAudio envTrimAlign sig48 sig16).1
      (by decide)).1,
    by decide,
    ((sample_rate_validation mgrAudio envTrimAlign sig48 sig16).1
      (by decide)).2 (by decide)⟩,
   rfl,
   (sample_rate_validation mgrAudio envTrimAlign sig48 sig48).2 rfl⟩

/-- C6: With equal sample rates, a duration mismatch beyond the 1.0
tolerance and a mode-unexpected sample rate (above 16 kHz in speech
mode, different from 48 kHz in full-audio mode) only log warnings:
validation returns the OK status and the initialized comparison proceeds
past validation into alignment. -/
theorem warnings_are_nonfatal (m : VisqolManager) (env : Env)
    (ref deg : AudioSignal)
    (hsr : ref.sample_rate = deg.sample_rate) :
    (m.ValidateInputAudio ref deg).1 = none ∧
    (|ref.GetDuration - deg.GetDuration| >
        VisqolManager.kDurationMismatchTolerance →
      LogEntry.durationMismatchWarning ∈
        (m.ValidateInputAudio ref deg).2) ∧
    (m.use_speech_mode_ = true → ref.sample_rate > k16kSampleRate →
      LogEntry.speechSampleRateWarning ∈ (m.ValidateInputAudio ref deg).2) ∧
    (m.use_speech_mode_ = false → ref.sample_rate ≠ k48kSampleRate →
      LogEntry.fullAudioSampleRateWarning ∈
        (m.ValidateInputAudio ref deg).2) ∧
    (m.is_initialized_ = true →
      (m.RunSignals env ref deg).deg_signal =
        (env.globallyAlign ref deg).1) := by
  have hv := validate_rates_eq m ref deg hsr
  refine ⟨hv, fun hdur => ?_, fun hms hr => ?_, fun hfa hr => ?_,
    fun hinit => runSignals_deg_aligned m env ref deg hinit hv⟩
  · unfold VisqolManager.ValidateInputAudio
    simp [hsr, hdur]
  · rw [hsr] at hr
    unfold VisqolManager.ValidateInputAudio
    simp [hsr, hms, hr]
  · rw [hsr] at hr
    unfold VisqolManager.ValidateInputAudio
    simp [hsr, hfa, hr]

/-- Witness for C6: a 5 s / 6.5 s duration mismatch with an unexpected
sample rate in full-audio mode, and an above-16 kHz rate in speech
mode. -/
theorem warnings_are_nonfatal_witness :
    ((mgrAudio.ValidateInputAudio refSigLong degSigLonger).1 = none ∧
     LogEntry.durationMismatchWarning ∈
       (mgrAudio.ValidateInputAudio refSigLong degSigLonger).2 ∧
     LogEntry.fullAudioSampleRateWarning ∈
       (mgrAudio.ValidateInputAudio refSigLong degSigLonger).2) ∧
    LogEntry.speechSampleRateWarning ∈
      (mgrSpeech.ValidateInputAudio sig17k sig17k).2 ∧
    (mgrAudio.RunSignals envTrimAlign refSigLong degSigLonger).deg_signal =
      (envTrimAlign.globallyAlign refSigLong degSigLonger).1 :=
  ⟨⟨(warnings_are_nonfatal mgrAudio envTrimAlign refSigLong degSigLonger
      (by decide)).1,
    (warnings_are_nonfatal mgrAudio envTrimAlign refSigLong degSigLonger
      (by decide)).2.1 (by
        unfold refSigLong degSigLonger AudioSignal.GetDuration
          VisqolManager.kDurationMismatchTolerance
        rw [gt_iff_lt, lt_abs]
        norm_num),
    (warnings_are_nonfatal mgrAudio envTrimAlign refSigLong degSigLonger
      (by decide)).2.2.2.1 (by decide) (by decide)⟩,
   (warnings_are_nonfatal mgrSpeech envTrimAlign sig17k sig17k
      (by decide)).2.2.1 (by decide) (by decide),
   (warnings_are_nonfatal mgrAudio envTrimAlign refSigLong degSigLonger
      (by decide)).2.2.2.2 (by decide)⟩

/-- A degraded signal whose aligned version differs from it. -/
def degSigC4 : AudioSignal := ⟨[0, 1], k48kSampleRate⟩

/-- Counterexample for C4: the `deg_signal` argument of the signal-based
`Run` is a non-const C++ reference and is overwritten with the aligned
signal, so at this concrete initialized manager and alignment behaviour
the caller-visible degraded signal IS mutated by the call. -/
theorem run_mutates_caller_degraded_signal :
    (mgrAudio.RunSignals envTrimAlign sig48 degSigC4).deg_signal ≠
      degSigC4 := by
  rw [runSignals_deg_aligned mgrAudio envTrimAlign sig48 degSigC4 (by decide)
    (validate_rates_eq mgrAudio sig48 degSigC4 (by decide))]
  decide

/-- C4 (amended): a comparison call leaves every `VisqolManager` field
(mode flags, configured components, initialization flag) unchanged, but
the degraded signal is time-shifted by overwriting the caller's
degraded-signal argument in place with the globally aligned signal — an
in-place mutation that is visible to the caller — on every call that
passes the initialization and validation checks. -/
theorem run_preserves_manager_overwrites_degraded (m : VisqolManager)
    (env : Env) (ref deg : AudioSignal)
    (hinit : m.is_initialized_ = true)
    (hv : (m.ValidateInputAudio ref deg).1 = none) :
    (m.RunSignals env ref deg).manager = m ∧
    (m.RunSignals env ref deg).deg_signal = (env.globallyAlign ref deg).1 :=
  ⟨runSignals_manager m env ref deg,
   runSignals_deg_aligned m env ref deg hinit hv⟩

/-- Witness for the amended C4 at a concrete manager and signals. -/
theorem run_preserves_manager_overwrites_degraded_witness :
    mgrAudio.is_initialized_ = true ∧
    (mgrAudio.ValidateInputAudio sig48 degSigC4).1 = none ∧
    ((mgrAudio.RunSignals envTrimAlign sig48 degSigC4).manager =
        mgrAudio ∧
     (mgrAudio.RunSignals envTrimAlign sig48 degSigC4).deg_signal =
       (envTrimAlign.globallyAlign sig48 degSigC4).1) :=
  ⟨by decide, validate_rates_eq mgrAudio sig48 degSigC4 (by decide),
    run_preserves_manager_overwrites_degraded mgrAudio envTrimAlign sig48
      degSigC4 (by decide)
      (validate_rates_eq mgrAudio sig48 degSigC4 (by decide))⟩

/-- C7: After `Init` the configuration is fully determined by the mode
flag: full-audio mode gets a 32-band filterbank at the 50 Hz minimum
frequency and a 30-frame patch creator, speech mode gets a 21-band
filterbank and a 20-frame patch creator, and the analysis-window overlap
constant is 0.25 in both modes. -/
theorem init_configuration_by_mode (m : VisqolManager) (env : Env)
    (model : FilePath') (u : Bool) :
    ((m.Init env model false u).1.spectrogram_builder_ =
        some (.gammatoneSpectrogramBuilder ⟨32, 50⟩ false) ∧
     (m.Init env model false u).1.patch_creator_ =
        some (.imagePatchCreator 30)) ∧
    ((m.Init env model true u).1.spectrogram_builder_ =
        some (.gammatoneSpectrogramBuilder ⟨21, 50⟩ true) ∧
     (m.Init env model true u).1.patch_creator_ =
        some (.vadPatchCreator 20)) ∧
    VisqolManager.kOverlap = 1/4 := by
  refine ⟨⟨?_, ?_⟩, ⟨rfl, rfl⟩, rfl⟩
  all_goals
    cases h : env.svrModelLoad model with
    | none =>
      simp [VisqolManager.Init, VisqolManager.InitPatchCreator,
        VisqolManager.InitPatchSelector, VisqolManager.InitSpectrogramBuilder,
        VisqolManager.InitSimilarityToQualityMapper,
        SimilarityToQualityMapper.Init, VisqolManager.kNumBandsAudio,
        VisqolManager.kNumBandsSpeech, VisqolManager.kMinimumFreq,
        VisqolManager.kPatchSize, VisqolManager.kPatchSizeSpeech, h]
    | some e =>
      simp [VisqolManager.Init, VisqolManager.InitPatchCreator,
        VisqolManager.InitPatchSelector, VisqolManager.InitSpectrogramBuilder,
        VisqolManager.InitSimilarityToQualityMapper,
        SimilarityToQualityMapper.Init, VisqolManager.kNumBandsAudio,
        VisqolManager.kNumBandsSpeech, VisqolManager.kMinimumFreq,
        VisqolManager.kPatchSize, VisqolManager.kPatchSizeSpeech, h]

/-- C8: The mapper variant is chosen exactly once by the mode flag at
`Init` and no comparison call changes it. In speech mode the speech
mapper is constructed without the model path — so `Init` does not depend
on the model file, always succeeds, and sets the initialization flag; in
full-audio mode the SVR mapper is constructed from the model path and
`Init` returns exactly the model-load status, failing when the model
cannot be loaded. -/
theorem mapper_fixed_by_mode (m : VisqolManager) (env : Env)
    (model : FilePath') (u : Bool) :
    ((m.Init env model true u).1.sim_to_qual_ = some (.speech (!u)) ∧
     (m.Init env model true u).2.1 = none ∧
     (m.Init env model true u).1.is_initialized_ = true ∧
     ∀ model' : FilePath',
       (m.Init env model' true u).1.sim_to_qual_ =
         (m.Init env model true u).1.sim_to_qual_) ∧
    ((m.Init env model false u).1.sim_to_qual_ = some (.svr model) ∧
     (m.Init env model false u).2.1 = env.svrModelLoad model) ∧
    (∀ r d : AudioSignal,
      (m.RunSignals env r d).manager.sim_to_qual_ = m.sim_to_qual_) ∧
    (∀ a b : FilePath',
      (m.RunPaths env a b).manager.sim_to_qual_ = m.sim_to_qual_) := by
  refine ⟨⟨rfl, rfl, rfl, fun model' => rfl⟩, ⟨?_, ?_⟩,
    fun r d => by rw [runSignals_manager],
    fun a b => by rw [runPaths_manager]⟩
  all_goals
    cases h : env.svrModelLoad model with
    | none =>
      simp [VisqolManager.Init, VisqolManager.InitPatchCreator,
        VisqolManager.InitPatchSelector, VisqolManager.InitSpectrogramBuilder,
        VisqolManager.InitSimilarityToQualityMapper,
        SimilarityToQualityMapper.Init, VisqolManager.kNumBandsAudio,
        VisqolManager.kNumBandsSpeech, VisqolManager.kMinimumFreq,
        VisqolManager.kPatchSize, VisqolManager.kPatchSizeSpeech, h]
    | some e =>
      simp [VisqolManager.Init, VisqolManager.InitPatchCreator,
        VisqolManager.InitPatchSelector, VisqolManager.InitSpectrogramBuilder,
        VisqolManager.InitSimilarityToQualityMapper,
        SimilarityToQualityMapper.Init, VisqolManager.kNumBandsAudio,
        VisqolManager.kNumBandsSpeech, VisqolManager.kMinimumFreq,
        VisqolManager.kPatchSize, VisqolManager.kPatchSizeSpeech, h]

end Visqol
